import Mathlib

/-!
Shallow embedding of LibreChat's MCP tool-call validation subsystem: the
`MCPToolCallValidationHandler` class (`packages/api/src/mcp/validation.ts`)
and the MCP router with its `validationIDUserGuard` middleware
(`packages/api/src/server/routes/mcp.ts`).

Effectful inputs are made explicit: `Date.now()` readings become `Nat`
parameters, `randomBytes` output becomes a byte-list parameter, and the
`FlowStateManager` collaborator becomes a record of response functions, with
every call the handler makes on it recorded in a trace.
-/

/-- Model of JavaScript `String.prototype.startsWith`: the characters of `p`
are a prefix of the characters of `s`. -/
def jsStartsWith (s p : String) : Bool :=
  p.data.isPrefixOf s.data

/-- Character of the URL-safe base64 alphabet at index `n` (meaningful for
`n < 64`): `A`–`Z`, `a`–`z`, `0`–`9`, `-`, `_`. -/
def b64Char (n : Nat) : Char :=
  if n < 26 then Char.ofNat (65 + n)
  else if n < 52 then Char.ofNat (97 + (n - 26))
  else if n < 62 then Char.ofNat (48 + (n - 52))
  else if n = 62 then '-'
  else '_'

/-- Index of a character in the URL-safe base64 alphabet. -/
def b64Val (c : Char) : Nat :=
  if 65 ≤ c.toNat ∧ c.toNat ≤ 90 then c.toNat - 65
  else if 97 ≤ c.toNat ∧ c.toNat ≤ 122 then c.toNat - 97 + 26
  else if 48 ≤ c.toNat ∧ c.toNat ≤ 57 then c.toNat - 48 + 52
  else if c = '-' then 62
  else 63

/-- URL-safe base64 encoding, without padding, of a byte list — the character
list of what Node's `Buffer.toString('base64url')` produces. -/
def b64urlEncodeList : List Nat → List Char
  | [] => []
  | [b1] => [b64Char (b1 / 4), b64Char (b1 % 4 * 16)]
  | [b1, b2] =>
    [b64Char (b1 / 4), b64Char (b1 % 4 * 16 + b2 / 16), b64Char (b2 % 16 * 4)]
  | b1 :: b2 :: b3 :: more =>
    b64Char (b1 / 4) :: b64Char (b1 % 4 * 16 + b2 / 16) ::
      b64Char (b2 % 16 * 4 + b3 / 64) :: b64Char (b3 % 64) :: b64urlEncodeList more

/-- Inverse of `b64urlEncodeList`: decodes an unpadded URL-safe base64
character list back to bytes. -/
def b64urlDecodeList : List Char → List Nat
  | [] => []
  | [_] => []
  | [c1, c2] => [b64Val c1 * 4 + b64Val c2 / 16]
  | [c1, c2, c3] =>
    [b64Val c1 * 4 + b64Val c2 / 16, b64Val c2 % 16 * 16 + b64Val c3 / 4]
  | c1 :: c2 :: c3 :: c4 :: more =>
    (b64Val c1 * 4 + b64Val c2 / 16) :: (b64Val c2 % 16 * 16 + b64Val c3 / 4) ::
      (b64Val c3 % 4 * 64 + b64Val c4) :: b64urlDecodeList more

/-- String form of the URL-safe base64 encoding without padding. -/
def b64urlEncode (bs : List Nat) : String :=
  String.mk (b64urlEncodeList bs)

/-- Decode an unpadded URL-safe base64 string to its bytes. -/
def b64urlDecode (s : String) : List Nat :=
  b64urlDecodeList s.data

/-- Opaque model of a JavaScript `Record<string, unknown>` value (the
`toolArguments` payload is never inspected by this subsystem). -/
abbrev JsRecord := List (String × String)

/-- Metadata object built by `initiateValidationFlow` (the `FlowMetadata`
shape this handler writes: the four domain fields plus `state` and
`timestamp`). -/
structure FlowMetadata where
  userId : String
  serverName : String
  toolName : String
  toolArguments : JsRecord
  state : String
  timestamp : Nat
deriving DecidableEq

/-- Modelled from the spec: a flow record as returned by the manager's
`getFlowState` — `status` string (`PENDING`/`COMPLETED`/`FAILED`), optional
`result`, optional `error` message, and the creation `metadata`. -/
structure FlowState where
  status : String
  result : Option Bool
  error : Option String
  metadata : FlowMetadata
deriving DecidableEq

/-- Observable operations a handler can invoke on the flow-state manager. -/
inductive MCall where
  | getFlowState (id ty : String)
  | createFlow (id ty : String) (ttl : Nat)
  | completeFlow (id ty : String) (result : Bool)
  | failFlow (id ty : String) (error : String)
deriving DecidableEq

/-- Modelled from the spec: the `FlowStateManager` collaborator, abstracted as
the responses it gives to each operation; `Except String` models a promise
that either resolves or rejects with an error message. -/
structure FlowStateManager where
  getFlowState : String → String → Except String (Option FlowState)
  completeFlow : String → String → Bool → Except String Unit
  failFlow : String → String → String → Except String Unit

namespace MCPToolCallValidationHandler

/-- Constant `FLOW_TYPE = 'mcp_tool_validation'`. -/
def FLOW_TYPE : String := "mcp_tool_validation"

/-- Constant `FLOW_TTL = 10 * 60 * 1000` milliseconds. -/
def FLOW_TTL : Nat := 10 * 60 * 1000

/-- Method `generateValidationId`: the template literal
`${userId}:${serverName}:${toolName}:${Date.now()}`; `now` is the `Date.now()`
reading in Unix milliseconds. -/
def generateValidationId (userId serverName toolName : String) (now : Nat) : String :=
  userId ++ ":" ++ serverName ++ ":" ++ toolName ++ ":" ++ toString now

/-- Method `generateState`: `randomBytes(32).toString('base64url')`; `entropy`
is the byte list produced by `randomBytes(32)`. -/
def generateState (entropy : List Nat) : String :=
  b64urlEncode entropy

/-- Resolved value of `initiateValidationFlow`. -/
structure InitResult where
  validationId : String
  flowMetadata : FlowMetadata
deriving DecidableEq

/-- Method `initiateValidationFlow`: derives the validation id and state token
and builds the metadata object. `now1` and `now2` are the two successive
`Date.now()` readings (id derivation, then metadata timestamp) and `entropy`
the `randomBytes(32)` output. The TypeScript method receives no
`FlowStateManager` and performs no manager operation, which the trace
component (always `[]`) records. -/
def initiateValidationFlow (userId serverName toolName : String)
    (toolArguments : JsRecord) (now1 now2 : Nat) (entropy : List Nat) :
    InitResult × List MCall :=
  let validationId := generateValidationId userId serverName toolName now1
  let state := generateState entropy
  (⟨validationId, ⟨userId, serverName, toolName, toolArguments, state, now2⟩⟩, [])

/-- Method `getFlowState` (adapter): reads the flow and returns its metadata,
`none` when the flow is absent; the second component is the trace of manager
calls performed. -/
def getFlowState (m : FlowStateManager) (validationId : String) :
    Except String (Option FlowMetadata) × List MCall :=
  (match m.getFlowState validationId FLOW_TYPE with
    | .error e => .error e
    | .ok none => .ok none
    | .ok (some flowState) => .ok (some flowState.metadata),
    [MCall.getFlowState validationId FLOW_TYPE])

/-- Try-block body of `completeValidationFlow`: look the flow up, throw
`Validation flow not found` when it is absent, otherwise `completeFlow` with
result `true`. -/
def completeBody (m : FlowStateManager) (validationId : String) :
    Except String Bool × List MCall :=
  match m.getFlowState validationId FLOW_TYPE with
  | .error e => (.error e, [MCall.getFlowState validationId FLOW_TYPE])
  | .ok none =>
    (.error "Validation flow not found", [MCall.getFlowState validationId FLOW_TYPE])
  | .ok (some _) =>
    match m.completeFlow validationId FLOW_TYPE true with
    | .error e =>
      (.error e,
        [MCall.getFlowState validationId FLOW_TYPE,
          MCall.completeFlow validationId FLOW_TYPE true])
    | .ok _ =>
      (.ok true,
        [MCall.getFlowState validationId FLOW_TYPE,
          MCall.completeFlow validationId FLOW_TYPE true])

/-- Method `completeValidationFlow`: runs the try-block body; on any error the
catch block awaits `failFlow` with that error and rethrows it. When the
`failFlow` call itself rejects, JavaScript propagates the `failFlow` rejection
out of the catch block instead of reaching the rethrow. -/
def completeValidationFlow (m : FlowStateManager) (validationId : String) :
    Except String Bool × List MCall :=
  match completeBody m validationId with
  | (.ok b, tr) => (.ok b, tr)
  | (.error e, tr) =>
    match m.failFlow validationId FLOW_TYPE e with
    | .ok _ => (.error e, tr ++ [MCall.failFlow validationId FLOW_TYPE e])
    | .error e2 => (.error e2, tr ++ [MCall.failFlow validationId FLOW_TYPE e])

end MCPToolCallValidationHandler

/-- JSON body of an HTTP response from the MCP router. -/
inductive RespBody where
  | errMsg (error : String)
  | statusBody (status : String) (completed failed : Bool) (error : Option String)
  | successTrue
deriving DecidableEq

/-- HTTP response: status code (`200` for a plain `res.json`) and JSON body. -/
structure HttpResponse where
  statusCode : Nat
  body : RespBody
deriving DecidableEq

/-- Middleware `validationIDUserGuard`: `userId` models `req.user?.id`
(`none` when the user object or its `id` is missing; the empty string is falsy
in JavaScript, so `!user?.id` also fires then). Returns the rejection response
it sends, or `none` when the guard lets the request through. -/
def validationIDUserGuard (userId : Option String) (validationId : String) :
    Option HttpResponse :=
  match userId with
  | none => some ⟨401, .errMsg "User not authenticated"⟩
  | some uid =>
    if uid = "" then some ⟨401, .errMsg "User not authenticated"⟩
    else if jsStartsWith validationId (uid ++ ":") then none
    else some ⟨403, .errMsg "Access denied"⟩

/-- Route body of `POST /validation/confirm/:validationId` (after the guard):
looks the flow up through the adapter, responds 404 when it is absent,
otherwise completes it and responds `{success: true}`; any thrown error is
caught and mapped to a 500. Also returns the trace of manager calls. -/
def confirmRoute (m : FlowStateManager) (validationId : String) :
    HttpResponse × List MCall :=
  match MCPToolCallValidationHandler.getFlowState m validationId with
  | (.error _, tr) => (⟨500, .errMsg "Failed to confirm validation"⟩, tr)
  | (.ok none, tr) => (⟨404, .errMsg "Validation flow not found"⟩, tr)
  | (.ok (some _), tr) =>
    match MCPToolCallValidationHandler.completeValidationFlow m validationId with
    | (.ok _, tr2) => (⟨200, .successTrue⟩, tr ++ tr2)
    | (.error _, tr2) => (⟨500, .errMsg "Failed to confirm validation"⟩, tr ++ tr2)

/-- Route body of `GET /validation/status/:validationId` (after the guard):
reads the flow directly from the manager with the literal type tag and reports
`{status, completed, failed, error}`; 404 when absent, 500 when the read
throws. -/
def statusRoute (m : FlowStateManager) (validationId : String) : HttpResponse :=
  match m.getFlowState validationId "mcp_tool_validation" with
  | .error _ => ⟨500, .errMsg "Failed to get validation status"⟩
  | .ok none => ⟨404, .errMsg "Validation flow not found"⟩
  | .ok (some flowState) =>
    ⟨200, .statusBody flowState.status (flowState.status == "COMPLETED")
      (flowState.status == "FAILED") flowState.error⟩

/-- Replace the state token inside an optional flow-record response. -/
def setStateToken (s : String) :
    Except String (Option FlowState) → Except String (Option FlowState)
  | .ok (some fs) => .ok (some { fs with metadata := { fs.metadata with state := s } })
  | r => r

/-- Manager identical to `m` except that every flow record it returns carries
state token `s` — two stores differing only in a flow's stored state token. -/
def withStateToken (s : String) (m : FlowStateManager) : FlowStateManager :=
  { m with getFlowState := fun id ty => setStateToken s (m.getFlowState id ty) }

/-- Example flow record used in concrete instantiations. -/
def sampleFlow : FlowState :=
  ⟨"PENDING", none, none, ⟨"u1", "srv", "tool", [], "tok", 0⟩⟩

/-- Manager whose `completeFlow` rejects with a storage error and whose
`failFlow` also rejects, with a different error. -/
def badManager : FlowStateManager :=
  ⟨fun _ _ => .ok (some sampleFlow), fun _ _ _ => .error "storage failure",
    fun _ _ _ => .error "fail-marking failed"⟩

/-- Manager that knows no flows and whose `failFlow` resolves. -/
def okFailManager : FlowStateManager :=
  ⟨fun _ _ => .ok none, fun _ _ _ => .error "boom", fun _ _ _ => .ok ()⟩

/-- Manager that returns `sampleFlow` for every key and resolves every
mutation. -/
def oneFlowManager : FlowStateManager :=
  ⟨fun _ _ => .ok (some sampleFlow), fun _ _ _ => .ok (), fun _ _ _ => .ok ()⟩

/-- Character list of the separator string. -/
theorem colon_data : (":" : String).data = [':'] := rfl

/-- Character-level shape of a generated validation id. -/
theorem generateValidationId_data (u s t : String) (n : Nat) :
    (MCPToolCallValidationHandler.generateValidationId u s t n).data =
      u.data ++ ':' :: (s.data ++ ':' :: (t.data ++ ':' :: (toString n).data)) := by
  simp [MCPToolCallValidationHandler.generateValidationId, colon_data]

/-- Every generated validation id starts with the owning user id followed by
the separator. -/
theorem generateValidationId_startsWith (u s t : String) (n : Nat) :
    jsStartsWith (MCPToolCallValidationHandler.generateValidationId u s t n)
      (u ++ ":") = true := by
  have h : ((u ++ ":").data : List Char) <+:
      (MCPToolCallValidationHandler.generateValidationId u s t n).data := by
    rw [generateValidationId_data]
    refine ⟨s.data ++ ':' :: (t.data ++ ':' :: (toString n).data), ?_⟩
    simp [colon_data]
  simpa [jsStartsWith] using h

/-- Uniqueness of a colon-terminated prefix: when neither `a` nor `b` contains
the separator, `b ++ [':']` can only be a prefix of `a ++ ':' :: tail` if
`b = a`. -/
theorem colonfree_unique (b : List Char) : ∀ (a tail : List Char), ':' ∉ a → ':' ∉ b →
    b ++ [':'] <+: a ++ ':' :: tail → b = a := by
  induction b with
  | nil =>
    intro a tail ha _ h
    cases a with
    | nil => rfl
    | cons c a2 =>
      simp only [List.nil_append, List.cons_append, List.cons_prefix_cons] at h
      exact absurd (by rw [h.1]; exact List.mem_cons_self c a2) ha
  | cons x b2 ih =>
    intro a tail ha hb h
    cases a with
    | nil =>
      simp only [List.nil_append, List.cons_append, List.cons_prefix_cons] at h
      exact absurd (by rw [← h.1]; exact List.mem_cons_self x b2) hb
    | cons c a2 =>
      simp only [List.cons_append, List.cons_prefix_cons] at h
      have ha2 : ':' ∉ a2 := fun hm => ha (List.mem_cons_of_mem c hm)
      have hb2 : ':' ∉ b2 := fun hm => hb (List.mem_cons_of_mem x hm)
      rw [h.1, ih a2 tail ha2 hb2 h.2]

/-- Decoding inverts encoding on each base64 alphabet index. -/
theorem b64Val_b64Char : ∀ n, n < 64 → b64Val (b64Char n) = n := by decide

/-- Unpadded URL-safe base64 decoding inverts encoding on byte lists. -/
theorem b64_roundtrip_list : ∀ (bs : List Nat), (∀ b ∈ bs, b < 256) →
    b64urlDecodeList (b64urlEncodeList bs) = bs
  | [], _ => rfl
  | [b1], hb => by
    have h1 : b1 < 256 := hb b1 (by simp)
    simp only [b64urlEncodeList, b64urlDecodeList]
    rw [b64Val_b64Char (b1 / 4) (by omega), b64Val_b64Char (b1 % 4 * 16) (by omega)]
    simp only [List.cons.injEq, and_true]
    omega
  | [b1, b2], hb => by
    have h1 : b1 < 256 := hb b1 (by simp)
    have h2 : b2 < 256 := hb b2 (by simp)
    simp only [b64urlEncodeList, b64urlDecodeList]
    rw [b64Val_b64Char (b1 / 4) (by omega),
      b64Val_b64Char (b1 % 4 * 16 + b2 / 16) (by omega),
      b64Val_b64Char (b2 % 16 * 4) (by omega)]
    simp only [List.cons.injEq, and_true]
    omega
  | b1 :: b2 :: b3 :: more, hb => by
    have h1 : b1 < 256 := hb b1 (by simp)
    have h2 : b2 < 256 := hb b2 (by simp)
    have h3 : b3 < 256 := hb b3 (by simp)
    have hr : ∀ b ∈ more, b < 256 := fun b hm => hb b (by simp [hm])
    simp only [b64urlEncodeList, b64urlDecodeList]
    rw [b64Val_b64Char (b1 / 4) (by omega),
      b64Val_b64Char (b1 % 4 * 16 + b2 / 16) (by omega),
      b64Val_b64Char (b2 % 16 * 4 + b3 / 64) (by omega),
      b64Val_b64Char (b3 % 64) (by omega)]
    rw [b64_roundtrip_list more hr]
    simp only [List.cons.injEq, and_true]
    omega

/-- String-level roundtrip: decoding the unpadded URL-safe base64 string of a
byte list recovers the bytes. -/
theorem b64_roundtrip (bs : List Nat) (hb : ∀ b ∈ bs, b < 256) :
    b64urlDecode (b64urlEncode bs) = bs :=
  b64_roundtrip_list bs hb

/-- C1 counterexample: at the spec's own example input
`initiateValidationFlow("u1","srv","tool",{a:1})`, the handler performs no
manager call at all — in particular no `createFlow` call with the fixed TTL
and flow-type tag — so no record is registered by the time it returns. -/
theorem c1_cex :
    (MCPToolCallValidationHandler.initiateValidationFlow "u1" "srv" "tool"
        [⟨"a", "1"⟩] 1700000000000 1700000000000 (List.replicate 32 0)).2 = [] ∧
    MCall.createFlow "u1:srv:tool:1700000000000" MCPToolCallValidationHandler.FLOW_TYPE
        MCPToolCallValidationHandler.FLOW_TTL ∉
      (MCPToolCallValidationHandler.initiateValidationFlow "u1" "srv" "tool"
        [⟨"a", "1"⟩] 1700000000000 1700000000000 (List.replicate 32 0)).2 := by
  exact ⟨rfl, by simp [MCPToolCallValidationHandler.initiateValidationFlow]⟩

/-- C1 (amended): `initiateValidationFlow` performs no `FlowStateManager`
operation — it never calls `createFlow` — and only derives the validation id
and builds the metadata; the handler merely defines the constants
`FLOW_TYPE = "mcp_tool_validation"` and `FLOW_TTL = 600000` ms, and flow
registration is left to the caller. -/
theorem c1_initiate_no_registration (u s t : String) (args : JsRecord)
    (now1 now2 : Nat) (entropy : List Nat) :
    (MCPToolCallValidationHandler.initiateValidationFlow u s t args now1 now2 entropy).2 = [] ∧
    MCPToolCallValidationHandler.FLOW_TYPE = "mcp_tool_validation" ∧
    MCPToolCallValidationHandler.FLOW_TTL = 600000 :=
  ⟨rfl, rfl, rfl⟩

/-- C2 counterexample: when the user id itself contains the separator, another
distinct user id also passes the ownership check — `generateValidationId`
applied to user "a:b" yields an id that starts with "a" followed by the
separator, yet "a" is a different user id. -/
theorem c2_cex :
    jsStartsWith (MCPToolCallValidationHandler.generateValidationId "a:b" "srv" "tool" 5)
        ("a" ++ ":") = true ∧
    ("a" : String) ≠ "a:b" := by
  exact ⟨by decide, by decide⟩

/-- C2 (amended): the generated validation id always satisfies the guard's
ownership check for the owning user, and when neither user id contains the
separator `:`, the owning user is the only user whose check passes. -/
theorem c2_userId_prefix_unique (u1 u2 s t : String) (now : Nat)
    (h1 : ':' ∉ u1.data) (h2 : ':' ∉ u2.data) :
    jsStartsWith (MCPToolCallValidationHandler.generateValidationId u1 s t now)
        (u1 ++ ":") = true ∧
    (jsStartsWith (MCPToolCallValidationHandler.generateValidationId u1 s t now)
        (u2 ++ ":") = true → u2 = u1) := by
  refine ⟨generateValidationId_startsWith u1 s t now, fun h => ?_⟩
  have hp : (u2 ++ ":").data <+:
      (MCPToolCallValidationHandler.generateValidationId u1 s t now).data := by
    simpa [jsStartsWith] using h
  rw [generateValidationId_data] at hp
  have hd : (u2 ++ ":").data = u2.data ++ [':'] := by simp [colon_data]
  rw [hd] at hp
  exact String.ext (colonfree_unique u2.data u1.data
    (s.data ++ ':' :: (t.data ++ ':' :: (toString now).data)) h1 h2 hp)

/-- C2 witness: the amended theorem applied at user "alice" against user
"bob". -/
theorem c2_witness :
    jsStartsWith (MCPToolCallValidationHandler.generateValidationId "alice" "srv" "tool" 5)
      ("alice" ++ ":") = true :=
  (c2_userId_prefix_unique "alice" "bob" "srv" "tool" 5 (by decide) (by decide)).1

/-- C3: the validationId returned by `initiateValidationFlow` is exactly
`"{userId}:{serverName}:{toolName}:{now}"` for the first `Date.now()` reading
`now`, and in particular always starts with `"{userId}:"`. -/
theorem c3_validationId_format (u s t : String) (args : JsRecord) (now1 now2 : Nat)
    (entropy : List Nat) :
    (MCPToolCallValidationHandler.initiateValidationFlow u s t args now1 now2 entropy).1.validationId
        = u ++ ":" ++ s ++ ":" ++ t ++ ":" ++ toString now1 ∧
    jsStartsWith
        (MCPToolCallValidationHandler.initiateValidationFlow u s t args now1 now2 entropy).1.validationId
        (u ++ ":") = true :=
  ⟨rfl, generateValidationId_startsWith u s t now1⟩

/-- C4: the flowMetadata returned by `initiateValidationFlow` is exactly the
four domain fields passed in, plus a state token that is the unpadded URL-safe
base64 encoding of the 32 random bytes (decoding back to exactly those 32
bytes), plus the clock timestamp. -/
theorem c4_metadata_fields (u s t : String) (args : JsRecord) (now1 now2 : Nat)
    (entropy : List Nat) (hlen : entropy.length = 32) (hbyte : ∀ b ∈ entropy, b < 256) :
    (MCPToolCallValidationHandler.initiateValidationFlow u s t args now1 now2 entropy).1.flowMetadata
        = ⟨u, s, t, args, b64urlEncode entropy, now2⟩ ∧
    b64urlDecode (b64urlEncode entropy) = entropy ∧
    (b64urlDecode (b64urlEncode entropy)).length = 32 := by
  have hr : b64urlDecode (b64urlEncode entropy) = entropy := b64_roundtrip entropy hbyte
  exact ⟨rfl, hr, by rw [hr, hlen]⟩

/-- C4 witness: the metadata theorem applied at a concrete 32-byte entropy
input. -/
theorem c4_witness :
    b64urlDecode (b64urlEncode (List.replicate 32 7)) = List.replicate 32 7 ∧
    (b64urlDecode (b64urlEncode (List.replicate 32 7))).length = 32 :=
  ⟨(c4_metadata_fields "u1" "srv" "tool" [] 0 0 (List.replicate 32 7)
      (by decide) (by decide)).2.1,
    (c4_metadata_fields "u1" "srv" "tool" [] 0 0 (List.replicate 32 7)
      (by decide) (by decide)).2.2⟩

/-- C5 counterexample: with a manager whose `completeFlow` rejects with
"storage failure" and whose `failFlow` rejects with "fail-marking failed",
`completeValidationFlow` raises the `failFlow` error — the original error does
not propagate, contradicting the claim's "even when the failFlow call itself
fails" part. -/
theorem c5_cex :
    (MCPToolCallValidationHandler.completeValidationFlow badManager "u1:srv:tool:1").1
        = Except.error "fail-marking failed" ∧
    (MCPToolCallValidationHandler.completeValidationFlow badManager "u1:srv:tool:1").1
        ≠ Except.error "storage failure" := by
  refine ⟨rfl, fun h => ?_⟩
  have h2 : (Except.error "fail-marking failed" : Except String Bool)
      = Except.error "storage failure" := h
  exact absurd (Except.error.inj h2) (by decide)

/-- C5 (amended): on any error `e` raised inside `completeValidationFlow` the
handler calls `failFlow` with `e`; when `failFlow` resolves, the original `e`
is re-raised to the caller, but when `failFlow` itself rejects, the `failFlow`
rejection propagates instead of the original error. -/
theorem c5_error_path (m : FlowStateManager) (v e : String)
    (hbody : (MCPToolCallValidationHandler.completeBody m v).1 = Except.error e) :
    MCall.failFlow v MCPToolCallValidationHandler.FLOW_TYPE e
        ∈ (MCPToolCallValidationHandler.completeValidationFlow m v).2 ∧
    (m.failFlow v MCPToolCallValidationHandler.FLOW_TYPE e = Except.ok ()
      → (MCPToolCallValidationHandler.completeValidationFlow m v).1 = Except.error e) ∧
    (∀ e2 : String, m.failFlow v MCPToolCallValidationHandler.FLOW_TYPE e = Except.error e2
      → (MCPToolCallValidationHandler.completeValidationFlow m v).1 = Except.error e2) := by
  rcases hcb : MCPToolCallValidationHandler.completeBody m v with ⟨r, tr⟩
  rw [hcb] at hbody
  simp only at hbody
  subst hbody
  cases hff : m.failFlow v MCPToolCallValidationHandler.FLOW_TYPE e with
  | ok u =>
    cases u
    refine ⟨?_, ?_, ?_⟩ <;>
      simp [MCPToolCallValidationHandler.completeValidationFlow, hcb, hff]
  | error e2 =>
    refine ⟨?_, ?_, ?_⟩ <;>
      simp [MCPToolCallValidationHandler.completeValidationFlow, hcb, hff]

/-- C5 witness: the amended error-path theorem applied to a concrete manager
with no flows, whose body raises the not-found error. -/
theorem c5_error_path_witness :
    MCall.failFlow "v" MCPToolCallValidationHandler.FLOW_TYPE "Validation flow not found"
        ∈ (MCPToolCallValidationHandler.completeValidationFlow okFailManager "v").2 :=
  (c5_error_path okFailManager "v" "Validation flow not found" rfl).1

/-- C6: the guard answers 401 "User not authenticated" exactly when no
authenticated user id is present (missing or empty), answers the distinct 403
"Access denied" when an authenticated id is present but the validationId does
not start with `"{callerId}:"`, and sends no rejection when the prefix
matches. -/
theorem c6_guard_cases (userId : Option String) (v : String) :
    ((userId = none ∨ userId = some "") →
      validationIDUserGuard userId v = some ⟨401, .errMsg "User not authenticated"⟩) ∧
    (∀ uid, userId = some uid → uid ≠ "" → jsStartsWith v (uid ++ ":") = false →
      validationIDUserGuard userId v = some ⟨403, .errMsg "Access denied"⟩) ∧
    (∀ uid, userId = some uid → uid ≠ "" → jsStartsWith v (uid ++ ":") = true →
      validationIDUserGuard userId v = none) ∧
    (⟨401, .errMsg "User not authenticated"⟩ : HttpResponse) ≠ ⟨403, .errMsg "Access denied"⟩ := by
  refine ⟨?_, ?_, ?_, by decide⟩
  · rintro (rfl | rfl) <;> simp [validationIDUserGuard]
  · rintro uid rfl hne hsw
    simp [validationIDUserGuard, hne, hsw]
  · rintro uid rfl hne hsw
    simp [validationIDUserGuard, hne, hsw]

/-- C6 witness: the guard theorem applied at an unauthenticated request, a
mismatching authenticated request, and a matching authenticated request. -/
theorem c6_guard_cases_witness :
    validationIDUserGuard none "x:1" = some ⟨401, .errMsg "User not authenticated"⟩ ∧
    validationIDUserGuard (some "u") "w:1" = some ⟨403, .errMsg "Access denied"⟩ ∧
    validationIDUserGuard (some "u") "u:1" = none :=
  ⟨(c6_guard_cases none "x:1").1 (Or.inl rfl),
    (c6_guard_cases (some "u") "w:1").2.1 "u" rfl (by decide) (by decide),
    (c6_guard_cases (some "u") "u:1").2.2.1 "u" rfl (by decide) (by decide)⟩

/-- C7: for a found flow record the status endpoint answers 200 with exactly
`{status, completed, failed, error}`, where completed holds iff the status is
COMPLETED and failed iff it is FAILED and error is the record's error field;
for a missing record it answers 404. -/
theorem c7_status_route (m : FlowStateManager) (v : String) (fs : FlowState) :
    (m.getFlowState v "mcp_tool_validation" = Except.ok (some fs) →
      statusRoute m v = ⟨200, .statusBody fs.status (fs.status == "COMPLETED")
          (fs.status == "FAILED") fs.error⟩ ∧
      ((fs.status == "COMPLETED") = true ↔ fs.status = "COMPLETED") ∧
      ((fs.status == "FAILED") = true ↔ fs.status = "FAILED")) ∧
    (m.getFlowState v "mcp_tool_validation" = Except.ok none →
      statusRoute m v = ⟨404, .errMsg "Validation flow not found"⟩) := by
  constructor
  · intro h
    refine ⟨by simp [statusRoute, h], ?_, ?_⟩ <;> simp
  · intro h
    simp [statusRoute, h]

/-- C7 witness: the status-route theorem applied to a concrete manager holding
a PENDING record. -/
theorem c7_status_route_witness :
    statusRoute oneFlowManager "v"
      = ⟨200, .statusBody "PENDING" ("PENDING" == "COMPLETED") ("PENDING" == "FAILED") none⟩ :=
  ((c7_status_route oneFlowManager "v" sampleFlow).1 rfl).1

/-- C8: the stored state token never influences either endpoint — replacing
every returned flow record's state token by an arbitrary other token leaves
the status endpoint's response and the confirm endpoint's response (and even
its manager-call trace) unchanged. -/
theorem c8_state_token_noninterference (m : FlowStateManager) (v s : String) :
    statusRoute (withStateToken s m) v = statusRoute m v ∧
    confirmRoute (withStateToken s m) v = confirmRoute m v := by
  constructor
  · simp only [statusRoute, withStateToken, setStateToken]
    cases m.getFlowState v "mcp_tool_validation" with
    | error e => rfl
    | ok o => cases o <;> rfl
  · simp only [confirmRoute, MCPToolCallValidationHandler.getFlowState,
      MCPToolCallValidationHandler.completeValidationFlow,
      MCPToolCallValidationHandler.completeBody, withStateToken, setStateToken]
    cases m.getFlowState v MCPToolCallValidationHandler.FLOW_TYPE with
    | error e => rfl
    | ok o =>
      cases o with
      | none => rfl
      | some fs =>
        cases m.completeFlow v MCPToolCallValidationHandler.FLOW_TYPE true with
        | ok u => rfl
        | error e =>
          cases m.failFlow v MCPToolCallValidationHandler.FLOW_TYPE e with
          | ok u => rfl
          | error e2 => rfl

/-- C9: on the not-found path `completeValidationFlow` does not merely throw —
its trace is exactly a lookup followed by a `failFlow` on the same
`(validationId, "mcp_tool_validation")` key carrying the not-found error, and
when that `failFlow` resolves the not-found error is what is re-raised. -/
theorem c9_notfound_failmark (m : FlowStateManager) (v : String)
    (hget : m.getFlowState v MCPToolCallValidationHandler.FLOW_TYPE = Except.ok none) :
    (MCPToolCallValidationHandler.completeValidationFlow m v).2
        = [MCall.getFlowState v MCPToolCallValidationHandler.FLOW_TYPE,
            MCall.failFlow v MCPToolCallValidationHandler.FLOW_TYPE "Validation flow not found"] ∧
    (m.failFlow v MCPToolCallValidationHandler.FLOW_TYPE "Validation flow not found"
        = Except.ok ()
      → (MCPToolCallValidationHandler.completeValidationFlow m v).1
          = Except.error "Validation flow not found") := by
  cases hff : m.failFlow v MCPToolCallValidationHandler.FLOW_TYPE "Validation flow not found" with
  | ok u =>
    cases u
    constructor <;>
      simp [MCPToolCallValidationHandler.completeValidationFlow,
        MCPToolCallValidationHandler.completeBody, hget, hff]
  | error e2 =>
    constructor <;>
      simp [MCPToolCallValidationHandler.completeValidationFlow,
        MCPToolCallValidationHandler.completeBody, hget, hff]

/-- C9 witness: the not-found fail-marking theorem applied to a concrete
manager with no flows. -/
theorem c9_notfound_failmark_witness :
    (MCPToolCallValidationHandler.completeValidationFlow okFailManager "v").2
      = [MCall.getFlowState "v" MCPToolCallValidationHandler.FLOW_TYPE,
          MCall.failFlow "v" MCPToolCallValidationHandler.FLOW_TYPE "Validation flow not found"] :=
  (c9_notfound_failmark okFailManager "v" rfl).1

/-- C10: when the adapter lookup returns null, the confirm endpoint responds
404 and its manager-call trace is exactly the single lookup — it invokes
neither `completeFlow` nor `failFlow`, leaving the manager's state
unchanged. -/
theorem c10_confirm_notfound_pure (m : FlowStateManager) (v : String)
    (hget : m.getFlowState v MCPToolCallValidationHandler.FLOW_TYPE = Except.ok none) :
    confirmRoute m v = (⟨404, .errMsg "Validation flow not found"⟩,
        [MCall.getFlowState v MCPToolCallValidationHandler.FLOW_TYPE]) ∧
    (∀ id ty r, MCall.completeFlow id ty r ∉ (confirmRoute m v).2) ∧
    (∀ id ty e, MCall.failFlow id ty e ∉ (confirmRoute m v).2) := by
  have h1 : confirmRoute m v = (⟨404, .errMsg "Validation flow not found"⟩,
      [MCall.getFlowState v MCPToolCallValidationHandler.FLOW_TYPE]) := by
    simp [confirmRoute, MCPToolCallValidationHandler.getFlowState, hget]
  refine ⟨h1, ?_, ?_⟩ <;> intro id ty x <;> rw [h1] <;> simp

/-- C10 witness: the mutation-free not-found theorem applied to a concrete
manager with no flows. -/
theorem c10_confirm_notfound_pure_witness :
    confirmRoute okFailManager "v" = (⟨404, .errMsg "Validation flow not found"⟩,
      [MCall.getFlowState "v" MCPToolCallValidationHandler.FLOW_TYPE]) :=
  (c10_confirm_notfound_pure okFailManager "v" rfl).1
